import Mathlib

/-!
# Verification of the cpprdmasim RDMA simulator core

A shallow embedding of the simulator's core data structures and operations:

* the typed value model of `include/rdma_types.h` (`QPValue`, `CQValue`,
  `MRValue`, `PDValue`, `CompletionEntry`, `RdmaWorkRequest`,
  `RdmaControlMsg`);
* the per-kind residency caches of `src/rdma_qp_cache.cpp`,
  `src/rdma_cq_cache.cpp`, `src/rdma_mr_cache.cpp`, `src/rdma_pd_cache.cpp`;
* the device operations of `src/rdma_device.cpp` (resource creation and
  destruction, `get_*_info`, `modify_qp_state`, `connect_qp`, `post_send`,
  `post_recv`, `poll_cq`), together with the process-wide QP registry
  (`global_qp_map`), instantiated for a single device (all claims are
  intra-process; delivery across two devices is structurally identical);
* the control-channel serializer / deserializer and the receive loop of
  `src/rdma_control_channel.cpp`.

Modelling conventions:

* C++ machine integers become `Nat`; the only place a width matters is the
  serializer, which truncates with `% 256` exactly where the source casts
  to a byte, and splits wider fields into little-endian bytes as the raw
  `append` of the underlying representation does.
* `std::unordered_map` becomes an association list with first-match lookup
  and in-place replacement; `begin()` (the entry evicted by the caches'
  capacity policy, which the source documents as an arbitrary choice)
  becomes the head of the list.
* Raw pointers become `Nat` addresses with `0` playing `nullptr`.  A work
  request carries `payload`, the list of bytes that the source would read
  from `wr.local_addr`; every `memcpy` into caller memory is recorded as an
  explicit `CopyEvent` instead of mutating an ambient heap.
* The network thread is a no-op in the source and is not modelled; mutexes
  serialize the operations, which the model reflects by making each
  operation a pure state transformer.
-/

namespace RSim

/-! ## Association-list primitives (model of `std::unordered_map`) -/

/-- First-match lookup, the model of `map.find(k)`. -/
def alookup {V : Type} : List (Nat × V) → Nat → Option V
  | [], _ => none
  | p :: ps, k => if p.1 = k then some p.2 else alookup ps k

/-- The `map[k] = v`: replace the first binding of `k` in place, else append. -/
def ainsert {V : Type} : List (Nat × V) → Nat → V → List (Nat × V)
  | [], k, v => [(k, v)]
  | p :: ps, k, v => if p.1 = k then (k, v) :: ps else p :: ainsert ps k v

/-- The `map.erase(k)`: drop the binding of `k`. -/
def aerase {V : Type} (l : List (Nat × V)) (k : Nat) : List (Nat × V) :=
  l.filter (fun p => p.1 ≠ k)

theorem alookup_ainsert_self {V : Type} (l : List (Nat × V)) (k : Nat) (v : V) :
    alookup (ainsert l k v) k = some v := by
  induction l with
  | nil => simp [ainsert, alookup]
  | cons p ps ih =>
    by_cases h : p.1 = k
    · simp [ainsert, h, alookup]
    · simp [ainsert, h, alookup, ih]

theorem alookup_ainsert_ne {V : Type} (l : List (Nat × V)) (k k' : Nat) (v : V)
    (h : k' ≠ k) : alookup (ainsert l k v) k' = alookup l k' := by
  have hne : ¬k = k' := fun hh => h hh.symm
  induction l with
  | nil => simp [ainsert, alookup, hne]
  | cons p ps ih =>
    by_cases hp : p.1 = k
    · subst hp
      simp [ainsert, alookup, hne]
    · by_cases hp' : p.1 = k' <;> simp [ainsert, hp, alookup, hp', ih, h, hne]

theorem alookup_aerase_self {V : Type} (l : List (Nat × V)) (k : Nat) :
    alookup (aerase l k) k = none := by
  induction l with
  | nil => simp [aerase, alookup]
  | cons p ps ih =>
    by_cases h : p.1 = k
    · simpa [aerase, h] using ih
    · simpa [aerase, h, alookup] using ih

theorem mem_of_alookup_eq_some {V : Type} {l : List (Nat × V)} {k : Nat} {v : V}
    (h : alookup l k = some v) : (k, v) ∈ l := by
  induction l with
  | nil => simp [alookup] at h
  | cons p ps ih =>
    by_cases hp : p.1 = k
    · simp [alookup, hp] at h
      cases p with
      | mk a b =>
        simp at hp
        subst hp
        subst h
        exact List.mem_cons_self _ _
    · simp [alookup, hp] at h
      exact List.mem_cons_of_mem _ (ih h)

theorem forall_ainsert {V : Type} {P : Nat × V → Prop} {l : List (Nat × V)}
    {k : Nat} {v : V} (hl : ∀ p ∈ l, P p) (hv : P (k, v)) :
    ∀ p ∈ ainsert l k v, P p := by
  induction l with
  | nil => simpa [ainsert]
  | cons q qs ih =>
    intro p hp
    by_cases hq : q.1 = k
    · simp [ainsert, hq] at hp
      rcases hp with h | h
      · exact h ▸ hv
      · exact hl p (List.mem_cons_of_mem _ h)
    · simp [ainsert, hq] at hp
      rcases hp with h | h
      · exact h ▸ hl q (List.mem_cons_self _ _)
      · exact ih (fun r hr => hl r (List.mem_cons_of_mem _ hr)) p h

theorem forall_aerase {V : Type} {P : Nat × V → Prop} {l : List (Nat × V)}
    {k : Nat} (hl : ∀ p ∈ l, P p) : ∀ p ∈ aerase l k, P p :=
  fun p hp => hl p (List.mem_of_mem_filter hp)

theorem forall_drop {V : Type} {P : Nat × V → Prop} {l : List (Nat × V)}
    {n : Nat} (hl : ∀ p ∈ l, P p) : ∀ p ∈ l.drop n, P p :=
  fun p hp => hl p (List.mem_of_mem_drop hp)

/-! ## Typed value model (`include/rdma_types.h`) -/

/-- The `enum class RdmaOpcode : uint8_t`. -/
inductive RdmaOpcode where
  | SEND | RECV | RDMA_WRITE | RDMA_READ
  | ATOMIC_CMP_AND_SWP | ATOMIC_FETCH_AND_ADD
  deriving DecidableEq, Repr

/-- The `enum class QpState : uint8_t`. -/
inductive QpState where
  | RESET | INIT | RTR | RTS | SQD | SQE | ERR
  deriving DecidableEq, Repr

/-- Numeric value of a `QpState`, as fixed by the enum declaration. -/
def QpState.toByte : QpState → Nat
  | .RESET => 0 | .INIT => 1 | .RTR => 2 | .RTS => 3
  | .SQD => 4 | .SQE => 5 | .ERR => 6

/-- Inverse cast `static_cast<QpState>(byte)`.  The C++ enum would keep an
out-of-range byte verbatim; the model folds such bytes to `RESET`, which no
claim distinguishes. -/
def QpState.fromByte : Nat → QpState
  | 0 => .RESET | 1 => .INIT | 2 => .RTR | 3 => .RTS
  | 4 => .SQD | 5 => .SQE | _ => .ERR

/-- The `enum class RdmaControlMsgType : uint8_t`. -/
inductive RdmaControlMsgType where
  | CONNECT_REQUEST | CONNECT_RESPONSE | READY | ERROR
  deriving DecidableEq, Repr

def RdmaControlMsgType.toByte : RdmaControlMsgType → Nat
  | .CONNECT_REQUEST => 0 | .CONNECT_RESPONSE => 1 | .READY => 2 | .ERROR => 3

/-- Inverse cast `static_cast<RdmaControlMsgType>(byte)`; out-of-range bytes
fold to `ERROR` (the C++ enum would keep the raw byte; no claim observes
such a value). -/
def RdmaControlMsgType.fromByte : Nat → RdmaControlMsgType
  | 0 => .CONNECT_REQUEST | 1 => .CONNECT_RESPONSE | 2 => .READY | _ => .ERROR

/-- The `struct QPValue`.  `gid` / `remote_gid` model `std::array<uint8_t, 16>`
as functions on `Fin 16`; `created_time` abstracts the steady-clock stamp;
`recv_addr` is a `Nat` address (`0` = `nullptr`); `pending_data` is the byte
buffer `std::vector<char>`. -/
structure QPValue where
  qp_num : Nat := 0
  dest_qp_num : Nat := 0
  lid : Nat := 0
  remote_lid : Nat := 0
  port_num : Nat := 1
  qp_access_flags : Nat := 0
  psn : Nat := 0
  remote_psn : Nat := 0
  gid : Fin 16 → Nat := fun _ => 0
  remote_gid : Fin 16 → Nat := fun _ => 0
  mtu : Nat := 1024
  state : QpState := .RESET
  send_cq : Nat := 0
  recv_cq : Nat := 0
  created_time : Nat := 0
  recv_addr : Nat := 0
  recv_length : Nat := 0
  pending_data : List Nat := []
  deriving DecidableEq

/-- The `struct CompletionEntry`. -/
structure CompletionEntry where
  wr_id : Nat := 0
  status : Nat := 0
  opcode : RdmaOpcode := .SEND
  length : Nat := 0
  imm_data : Nat := 0
  deriving DecidableEq, Repr

/-- The `struct RdmaWorkRequest`.  `payload` carries the `length` bytes that the
source would read from `local_addr`; addresses are `Nat` (`0` = null). -/
structure RdmaWorkRequest where
  opcode : RdmaOpcode := .SEND
  local_addr : Nat := 0
  lkey : Nat := 0
  length : Nat := 0
  remote_addr : Nat := 0
  rkey : Nat := 0
  imm_data : Nat := 0
  signaled : Bool := true
  wr_id : Nat := 0
  payload : List Nat := []
  deriving DecidableEq

/-- The `struct CQValue`. -/
structure CQValue where
  cq_num : Nat := 0
  cqe : Nat := 0
  comp_vector : Nat := 0
  completions : List CompletionEntry := []
  deriving DecidableEq, Repr

/-- The `struct MRValue`. -/
structure MRValue where
  lkey : Nat := 0
  access_flags : Nat := 0
  length : Nat := 0
  addr : Nat := 0
  deriving DecidableEq, Repr

/-- The `struct PDValue` (the `resources` map is never touched by the device
operations modelled here). -/
structure PDValue where
  pd_handle : Nat := 0
  resources : List (String × List Nat) := []
  deriving DecidableEq

/-- The `struct RdmaControlMsg`.  `error_msg` is the list of bytes of the error
string. -/
structure RdmaControlMsg where
  type : RdmaControlMsgType := .CONNECT_REQUEST
  qp_info : QPValue := {}
  accept : Bool := false
  error_msg : List Nat := []
  deriving DecidableEq

/-! ## Control-channel serialization (`src/rdma_control_channel.cpp`) -/

/-- The two little-endian bytes appended for a `uint16_t` field. -/
def u16le (n : Nat) : List Nat :=
  [n % 256, n / 256 % 256]

/-- The four little-endian bytes appended for a `uint32_t` field. -/
def u32le (n : Nat) : List Nat :=
  [n % 256, n / 256 % 256, n / 65536 % 256, n / 16777216 % 256]

/-- The `RdmaControlChannel::serialize_message`: 1-byte type, the `QPValue` wire
fields in declaration order, the accept byte, the 4-byte error length and
the error bytes (appended only when the length is positive, like the
source's `if (error_len > 0)`). -/
def serialize_message (msg : RdmaControlMsg) : List Nat :=
  [msg.type.toByte % 256]
    ++ u32le msg.qp_info.qp_num
    ++ u32le msg.qp_info.dest_qp_num
    ++ u16le msg.qp_info.lid
    ++ u16le msg.qp_info.remote_lid
    ++ [msg.qp_info.port_num % 256]
    ++ u32le msg.qp_info.qp_access_flags
    ++ u32le msg.qp_info.psn
    ++ u32le msg.qp_info.remote_psn
    ++ List.ofFn msg.qp_info.gid
    ++ List.ofFn msg.qp_info.remote_gid
    ++ u32le msg.qp_info.mtu
    ++ [msg.qp_info.state.toByte % 256]
    ++ [if msg.accept then 1 else 0]
    ++ u32le msg.error_msg.length
    ++ (if msg.error_msg.length > 0 then msg.error_msg else [])

/-- Read one byte (the bounds check `offset + 1 > data.size()`). -/
def readU8 : List Nat → Option (Nat × List Nat)
  | [] => none
  | b :: r => some (b, r)

/-- Read a little-endian `uint16_t`. -/
def readU16 : List Nat → Option (Nat × List Nat)
  | b0 :: b1 :: r => some (b0 + 256 * b1, r)
  | _ => none

/-- Read a little-endian `uint32_t`. -/
def readU32 : List Nat → Option (Nat × List Nat)
  | b0 :: b1 :: b2 :: b3 :: r => some (b0 + 256 * (b1 + 256 * (b2 + 256 * b3)), r)
  | _ => none

/-- Read `n` raw bytes (the `memcpy` of the 16-byte gid arrays and the
`substr` of the error string, with their bounds checks). -/
def readBytes (n : Nat) (l : List Nat) : Option (List Nat × List Nat) :=
  if n ≤ l.length then some (l.take n, l.drop n) else none

/-- The `RdmaControlChannel::deserialize_message`.  The source fills the
caller-supplied output message field by field; `prior` is that output
message, so fields the wire format does not carry keep their prior
values. -/
def deserialize_message (data : List Nat) (prior : RdmaControlMsg) :
    Option RdmaControlMsg :=
  if data.isEmpty then none else
  match readU8 data with
  | none => none
  | some (ty, r1) =>
  match readU32 r1 with
  | none => none
  | some (qpn, r2) =>
  match readU32 r2 with
  | none => none
  | some (dqpn, r3) =>
  match readU16 r3 with
  | none => none
  | some (lid, r4) =>
  match readU16 r4 with
  | none => none
  | some (rlid, r5) =>
  match readU8 r5 with
  | none => none
  | some (pn, r6) =>
  match readU32 r6 with
  | none => none
  | some (fl, r7) =>
  match readU32 r7 with
  | none => none
  | some (psn, r8) =>
  match readU32 r8 with
  | none => none
  | some (rpsn, r9) =>
  match readBytes 16 r9 with
  | none => none
  | some (g, r10) =>
  match readBytes 16 r10 with
  | none => none
  | some (rg, r11) =>
  match readU32 r11 with
  | none => none
  | some (mtu, r12) =>
  match readU8 r12 with
  | none => none
  | some (st, r13) =>
  match readU8 r13 with
  | none => none
  | some (ac, r14) =>
  match readU32 r14 with
  | none => none
  | some (el, r15) =>
  match (if el > 0 then (readBytes el r15).map (·.1) else some []) with
  | none => none
  | some em =>
  some { prior with
    type := RdmaControlMsgType.fromByte ty
    accept := ac != 0
    error_msg := em
    qp_info := { prior.qp_info with
      qp_num := qpn, dest_qp_num := dqpn, lid := lid, remote_lid := rlid,
      port_num := pn, qp_access_flags := fl, psn := psn, remote_psn := rpsn,
      gid := fun i => g.getD i 0, remote_gid := fun i => rg.getD i 0,
      mtu := mtu, state := QpState.fromByte st } }

/-! ## Control-channel receive loop (`RdmaControlChannel::receive_message`)

The socket is abstracted by an oracle (`RecvEnv`) recording what `poll` and
`recv` return at each step; elapsed wall-clock time at the top of each body
iteration is likewise drawn from the oracle.  The outcome carries the boolean
result and the connection state after the call; `pending` is returned when
the oracle trace is too short to decide the run (no source path corresponds
to it). -/

/-- The `RdmaControlChannel::ConnectionState`. -/
inductive ConnectionState where
  | DISCONNECTED | CONNECTING | CONNECTED | ERROR
  deriving DecidableEq, Repr

/-- One iteration of the body-read loop: ms elapsed since the body read
started (sampled at the top of the iteration), the `poll` return value, and
the `recv` return value (consulted only when `poll` reported readiness). -/
structure BodyIter where
  elapsedMs : Nat := 0
  pollRes : Int := 1
  recvRes : Int := 0
  deriving DecidableEq, Repr

/-- Oracle for one `receive_message` call: header `poll` result, header
`recv` result (4 = full length word), the decoded `msg_len`, the body-loop
iterations, and the body bytes that end up in the buffer. -/
structure RecvEnv where
  headerPollRes : Int := 1
  headerRecvRes : Int := 4
  msgLen : Nat := 0
  body : List BodyIter := []
  bodyData : List Nat := []
  deriving DecidableEq

/-- Result of a modelled `receive_message`: the returned boolean and the
channel state afterwards; `pending` when the oracle trace ran out. -/
inductive RecvOutcome where
  | done (ok : Bool) (st : ConnectionState)
  | pending
  deriving DecidableEq, Repr

/-- The `while (received < msg_len)` loop of `receive_message`.  Faithful to
the source: the top-of-loop deadline check returns `false` without touching
the state, while a non-positive `poll` result inside the loop (error *or*
timeout) and a non-positive `recv` result all drive the channel to `ERROR`. -/
def bodyLoop (st : ConnectionState) (timeoutMs msgLen received : Nat)
    (iters : List BodyIter) (data : List Nat) : RecvOutcome :=
  if received ≥ msgLen then
    .done (deserialize_message (data.take msgLen) {}).isSome st
  else
    match iters with
    | [] => .pending
    | i :: rest =>
      if 0 < timeoutMs ∧ (timeoutMs : Int) - (i.elapsedMs : Int) ≤ 0 then
        .done false st
      else if i.pollRes ≤ 0 then
        .done false .ERROR
      else if i.recvRes ≤ 0 then
        .done false .ERROR
      else
        bodyLoop st timeoutMs msgLen (received + i.recvRes.toNat) rest data

/-- The `RdmaControlChannel::receive_message` over the oracle.  `st` is the
channel state on entry and `socketOk` the validity of `socket_fd_`. -/
def receive_message (st : ConnectionState) (socketOk : Bool)
    (timeoutMs : Nat) (env : RecvEnv) : RecvOutcome :=
  if st ≠ ConnectionState.CONNECTED ∨ socketOk = false then
    .done false st
  else if env.headerPollRes ≤ 0 then
    (if env.headerPollRes < 0 then .done false .ERROR else .done false st)
  else if env.headerRecvRes ≠ 4 then
    .done false .ERROR
  else if env.msgLen > 4096 ∨ env.msgLen = 0 then
    .done false .ERROR
  else
    bodyLoop st timeoutMs env.msgLen 0 env.body env.bodyData

/-! ## Residency caches (`src/rdma_*_cache.cpp`)

Each cache is a capacity-bounded map.  On `set`, the QP/CQ/PD caches evict
one arbitrary entry (`erase(begin())`, modelled as dropping the list head)
whenever `size >= capacity`; the MR cache additionally skips eviction when
the key is already present.  The simulated-delay knobs only sleep and are
not modelled. -/

structure Cache (V : Type) where
  cap : Nat
  entries : List (Nat × V)
  deriving DecidableEq

/-- The `Rdma*Cache::get`. -/
def Cache.get {V : Type} (c : Cache V) (k : Nat) : Option V :=
  alookup c.entries k

/-- The `RdmaQPCache::set` / `RdmaCQCache::set` / `RdmaPDCache::set`: evict the
first entry whenever the cache is at capacity, then store. -/
def Cache.set {V : Type} (c : Cache V) (k : Nat) (v : V) : Cache V :=
  { c with entries :=
      ainsert (if c.entries.length ≥ c.cap then c.entries.drop 1 else c.entries) k v }

/-- The `RdmaMRCache::set`: evict only when at capacity *and* the key is new. -/
def Cache.setMR {V : Type} (c : Cache V) (k : Nat) (v : V) : Cache V :=
  { c with entries :=
      (ainsert
        (if c.entries.length ≥ c.cap ∧ (alookup c.entries k).isNone
         then c.entries.drop 1 else c.entries) k v) }

/-- The `RdmaCQCache::batch_get_completions`: move up to `maxCount` entries from
the front of the CQ's completion FIFO (in-place mutation of the cached
record, no eviction). -/
def Cache.batchGetCompletions (c : Cache CQValue) (k : Nat) (maxCount : Nat) :
    List CompletionEntry × Cache CQValue :=
  match alookup c.entries k with
  | none => ([], c)
  | some cq =>
    let n := min maxCount cq.completions.length
    (cq.completions.take n,
     { c with entries :=
         (ainsert c.entries k { cq with completions := cq.completions.drop n }) })

/-! ## The device (`src/rdma_device.cpp`)

State of one `RdmaDevice` plus the process-wide `global_qp_map` restricted
to that device.  A registry entry records which tier map the registered
`QPValue*` points into (`post_send` registers device-tier and host-table
records, never cache-resident ones).  The `enable_middle_cache_` atomic is
the explicit `mc` argument of every operation that reads it. -/

/-- Which tier map a `global_qp_map` back-pointer aims at. -/
inductive Tier where
  | device | host
  deriving DecidableEq, Repr

structure Device where
  qps : List (Nat × QPValue) := []
  qpsHost : List (Nat × QPValue) := []
  cqs : List (Nat × CQValue) := []
  cqsHost : List (Nat × CQValue) := []
  mrs : List (Nat × MRValue) := []
  pds : List (Nat × PDValue) := []
  qpCache : Cache QPValue := ⟨0, []⟩
  cqCache : Cache CQValue := ⟨0, []⟩
  mrCache : Cache MRValue := ⟨0, []⟩
  pdCache : Cache PDValue := ⟨0, []⟩
  maxQps : Nat := 256
  maxCqs : Nat := 256
  maxMrs : Nat := 1024
  maxPds : Nat := 64
  nextQpNum : Nat := 1
  nextCqNum : Nat := 1
  nextMrLkey : Nat := 1
  nextPdHandle : Nat := 1
  globalQp : List (Nat × Tier) := []
  deriving DecidableEq

/-- The `RdmaDevice::RdmaDevice`: empty tiers, counters at 1, cache capacity
twice the device capacity. -/
def Device.init (maxQps maxCqs maxMrs maxPds : Nat) : Device :=
  { qpCache := ⟨2 * maxQps, []⟩, cqCache := ⟨2 * maxCqs, []⟩,
    mrCache := ⟨2 * maxMrs, []⟩, pdCache := ⟨2 * maxPds, []⟩,
    maxQps := maxQps, maxCqs := maxCqs, maxMrs := maxMrs, maxPds := maxPds }

/-- The `RdmaDevice::create_qp`.  The `max_send_wr` / `max_recv_wr` arguments
are accepted and ignored, exactly as in the source (the parameters are
commented out there).  Checks both CQs across the tiers, then places the
fresh QP in the device tier if there is room, else in the middle cache when
enabled, else in the host table. -/
def Device.create_qp (mc : Bool) (d : Device)
    (_maxSendWr _maxRecvWr sendCq recvCq : Nat) : Nat × Device :=
  let se0 := (alookup d.cqs sendCq).isSome
  let re0 := (alookup d.cqs recvCq).isSome
  let sr :=
    if se0 && re0 then (se0, re0)
    else if mc then
      (se0 || (d.cqCache.get sendCq).isSome, re0 || (d.cqCache.get recvCq).isSome)
    else
      (se0 || (alookup d.cqsHost sendCq).isSome,
       re0 || (alookup d.cqsHost recvCq).isSome)
  if !(sr.1 && sr.2) then (0, d)
  else
    let qpNum := d.nextQpNum
    let qpv : QPValue := { qp_num := qpNum, state := .RESET,
                           send_cq := sendCq, recv_cq := recvCq }
    if d.qps.length < d.maxQps then
      (qpNum, { d with nextQpNum := qpNum + 1, qps := ainsert d.qps qpNum qpv })
    else if mc then
      (qpNum, { d with nextQpNum := qpNum + 1, qpCache := d.qpCache.set qpNum qpv })
    else
      (qpNum, { d with nextQpNum := qpNum + 1, qpsHost := ainsert d.qpsHost qpNum qpv })

/-- The `RdmaDevice::create_cq`.  No check of `max_cqe`: every call returns a
fresh handle. -/
def Device.create_cq (mc : Bool) (d : Device) (maxCqe : Nat) : Nat × Device :=
  let cqNum := d.nextCqNum
  let cqv : CQValue := { cq_num := cqNum, cqe := maxCqe }
  if d.cqs.length < d.maxCqs then
    (cqNum, { d with nextCqNum := cqNum + 1, cqs := ainsert d.cqs cqNum cqv })
  else if mc then
    (cqNum, { d with nextCqNum := cqNum + 1, cqCache := d.cqCache.set cqNum cqv })
  else
    (cqNum, { d with nextCqNum := cqNum + 1, cqsHost := ainsert d.cqsHost cqNum cqv })

/-- The `RdmaDevice::register_mr`.  No null check of `addr`; the overflow path
uses the MR cache unconditionally (there is no host table for MRs). -/
def Device.register_mr (d : Device) (addr len accessFlags : Nat) : Nat × Device :=
  let lkey := d.nextMrLkey
  let mrv : MRValue := { lkey := lkey, addr := addr, length := len,
                         access_flags := accessFlags }
  if d.mrs.length < d.maxMrs then
    (lkey, { d with nextMrLkey := lkey + 1, mrs := ainsert d.mrs lkey mrv })
  else
    (lkey, { d with nextMrLkey := lkey + 1, mrCache := d.mrCache.setMR lkey mrv })

/-- The `RdmaDevice::create_pd`. -/
def Device.create_pd (d : Device) : Nat × Device :=
  let h := d.nextPdHandle
  let pdv : PDValue := { pd_handle := h }
  if d.pds.length < d.maxPds then
    (h, { d with nextPdHandle := h + 1, pds := ainsert d.pds h pdv })
  else
    (h, { d with nextPdHandle := h + 1, pdCache := d.pdCache.set h pdv })

/-- The `RdmaDevice::get_qp_info`: device tier first, then the middle cache when
enabled, else the host table. -/
def Device.get_qp_info (mc : Bool) (d : Device) (qpNum : Nat) : Option QPValue :=
  match alookup d.qps qpNum with
  | some v => some v
  | none => if mc then d.qpCache.get qpNum else alookup d.qpsHost qpNum

/-- The `RdmaDevice::get_cq_info`. -/
def Device.get_cq_info (mc : Bool) (d : Device) (cqNum : Nat) : Option CQValue :=
  match alookup d.cqs cqNum with
  | some v => some v
  | none => if mc then d.cqCache.get cqNum else alookup d.cqsHost cqNum

/-- The `RdmaDevice::get_mr_info`: device tier, then the MR cache (no
middle-cache switch and no host table for MRs). -/
def Device.get_mr_info (d : Device) (lkey : Nat) : Option MRValue :=
  match alookup d.mrs lkey with
  | some v => some v
  | none => d.mrCache.get lkey

/-- The `RdmaDevice::destroy_qp`: erase from the device tier; on miss, if the
middle cache holds the handle, overwrite the cached entry with an empty
`QPValue` (the handle stays present).  The host table is never touched. -/
def Device.destroy_qp (d : Device) (qpNum : Nat) : Device :=
  if (alookup d.qps qpNum).isSome then
    { d with qps := aerase d.qps qpNum }
  else if (d.qpCache.get qpNum).isSome then
    { d with qpCache := d.qpCache.set qpNum {} }
  else d

/-- The `RdmaDevice::destroy_cq`: same shape as `destroy_qp`. -/
def Device.destroy_cq (d : Device) (cqNum : Nat) : Device :=
  if (alookup d.cqs cqNum).isSome then
    { d with cqs := aerase d.cqs cqNum }
  else if (d.cqCache.get cqNum).isSome then
    { d with cqCache := d.cqCache.set cqNum {} }
  else d

/-- The `RdmaDevice::deregister_mr`: same shape, with the MR cache's `set`. -/
def Device.deregister_mr (d : Device) (lkey : Nat) : Device :=
  if (alookup d.mrs lkey).isSome then
    { d with mrs := aerase d.mrs lkey }
  else if (d.mrCache.get lkey).isSome then
    { d with mrCache := d.mrCache.setMR lkey {} }
  else d

/-- The `RdmaDevice::destroy_pd`. -/
def Device.destroy_pd (d : Device) (h : Nat) : Device :=
  if (alookup d.pds h).isSome then
    { d with pds := aerase d.pds h }
  else if (d.pdCache.get h).isSome then
    { d with pdCache := d.pdCache.set h {} }
  else d

/-- The `RdmaDevice::validate_qp_transition`: accepts everything (the body is a
TODO returning `true`). -/
def Device.validate_qp_transition (_current _next : QpState) : Bool := true

/-- The `RdmaDevice::modify_qp_state`. -/
def Device.modify_qp_state (mc : Bool) (d : Device) (qpNum : Nat)
    (newState : QpState) : Bool × Device :=
  match alookup d.qps qpNum with
  | some v =>
    if Device.validate_qp_transition v.state newState then
      (true, { d with qps := ainsert d.qps qpNum { v with state := newState } })
    else (false, d)
  | none =>
    if mc then
      match d.qpCache.get qpNum with
      | none => (false, d)
      | some v =>
        if Device.validate_qp_transition v.state newState then
          (true, { d with qpCache := d.qpCache.set qpNum { v with state := newState } })
        else (false, d)
    else
      match alookup d.qpsHost qpNum with
      | none => (false, d)
      | some v =>
        if Device.validate_qp_transition v.state newState then
          (true, { d with qpsHost := ainsert d.qpsHost qpNum { v with state := newState } })
        else (false, d)

/-- The `RdmaDevice::connect_qp`: copy the peer's identifiers into the local
record. -/
def Device.connect_qp (mc : Bool) (d : Device) (qpNum : Nat)
    (remote : QPValue) : Bool × Device :=
  let upd : QPValue → QPValue := fun v =>
    { v with dest_qp_num := remote.qp_num, remote_lid := remote.lid,
             remote_psn := remote.psn, remote_gid := remote.gid }
  match alookup d.qps qpNum with
  | some v => (true, { d with qps := ainsert d.qps qpNum (upd v) })
  | none =>
    if mc then
      match d.qpCache.get qpNum with
      | none => (false, d)
      | some v => (true, { d with qpCache := d.qpCache.set qpNum (upd v) })
    else
      match alookup d.qpsHost qpNum with
      | none => (false, d)
      | some v => (true, { d with qpsHost := ainsert d.qpsHost qpNum (upd v) })

/-! ## Data plane: `post_send`, `post_recv`, `poll_cq` -/

/-- One `memcpy` into caller memory: destination address and the bytes
written. -/
structure CopyEvent where
  dst : Nat
  bytes : List Nat
  deriving DecidableEq, Repr

/-- Result of a data-plane operation: the boolean return value, the copies
performed into caller memory, and the device afterwards. -/
structure OpResult where
  ok : Bool
  events : List CopyEvent
  dev : Device
  deriving DecidableEq

/-- Completion routing used by `post_send` (both the send-side completion
and the delivery-side RECV completion): device-tier CQ in place, else a
middle-cache hit (read-modify-write through the cache), else the host
table, else the completion is dropped with a diagnostic.  The source
consults the cache and the host table here without reading
`enable_middle_cache_`. -/
def Device.enqueue_completion (d : Device) (cqNum : Nat)
    (e : CompletionEntry) : Device :=
  match alookup d.cqs cqNum with
  | some cq =>
    { d with cqs := ainsert d.cqs cqNum { cq with completions := cq.completions ++ [e] } }
  | none =>
    match d.cqCache.get cqNum with
    | some cq =>
      { d with cqCache := d.cqCache.set cqNum { cq with completions := cq.completions ++ [e] } }
    | none =>
      match alookup d.cqsHost cqNum with
      | some cq =>
        { d with cqsHost := ainsert d.cqsHost cqNum { cq with completions := cq.completions ++ [e] } }
      | none => d

/-- Completion routing used by the `post_recv` drain path: device tier,
else middle cache — the host table is *not* consulted there, so a
host-resident CQ silently loses the completion. -/
def Device.enqueue_completion_nohost (d : Device) (cqNum : Nat)
    (e : CompletionEntry) : Device :=
  match alookup d.cqs cqNum with
  | some cq =>
    { d with cqs := ainsert d.cqs cqNum { cq with completions := cq.completions ++ [e] } }
  | none =>
    match d.cqCache.get cqNum with
    | some cq =>
      { d with cqCache := d.cqCache.set cqNum { cq with completions := cq.completions ++ [e] } }
    | none => d

/-- The QP lookup at the top of `post_send`: device tier (registering the
record in `global_qp_map`), else middle cache when enabled (no
registration), else host table (registering). -/
def Device.sendLookup (mc : Bool) (d : Device) (qpNum : Nat) :
    Option (QPValue × Device) :=
  match alookup d.qps qpNum with
  | some v => some (v, { d with globalQp := ainsert d.globalQp qpNum Tier.device })
  | none =>
    if mc then
      match d.qpCache.get qpNum with
      | some v => some (v, d)
      | none => none
    else
      match alookup d.qpsHost qpNum with
      | some v => some (v, { d with globalQp := ainsert d.globalQp qpNum Tier.host })
      | none => none

/-- Fetch the record a `global_qp_map` back-pointer designates. -/
def Device.tierLookup (d : Device) (t : Tier) (k : Nat) : Option QPValue :=
  match t with
  | .device => alookup d.qps k
  | .host => alookup d.qpsHost k

/-- Store through a `global_qp_map` back-pointer. -/
def Device.tierStore (d : Device) (t : Tier) (k : Nat) (v : QPValue) : Device :=
  match t with
  | .device => { d with qps := ainsert d.qps k v }
  | .host => { d with qpsHost := ainsert d.qpsHost k v }

/-- The delivery half of `post_send`: the destination QP was found in
`global_qp_map` at tier `t`.  With a posted receive buffer, copy
`min(wr.length, recv_length)` bytes, enqueue a RECV completion on the
destination `recv_cq` and clear the buffer fields; otherwise overwrite
`pending_data` with the payload.  (A registry entry whose record has been
erased is a dangling pointer in the source; the model makes it a no-op.) -/
def Device.deliver (d : Device) (t : Tier) (dest : Nat)
    (wr : RdmaWorkRequest) : OpResult :=
  match Device.tierLookup d t dest with
  | none => ⟨true, [], d⟩
  | some r =>
    if r.recv_addr ≠ 0 then
      let copySize := min wr.length r.recv_length
      let ev : CopyEvent := ⟨r.recv_addr, wr.payload.take copySize⟩
      let comp : CompletionEntry :=
        { wr_id := 0, status := 0, opcode := .RECV, length := copySize }
      let d2 := Device.enqueue_completion d r.recv_cq comp
      let d3 := Device.tierStore d2 t dest { r with recv_addr := 0, recv_length := 0 }
      ⟨true, [ev], d3⟩
    else
      ⟨true, [], Device.tierStore d t dest { r with pending_data := wr.payload }⟩

/-- The `post_send` after the QP was found and registered: require `RTS`,
enqueue the signaled send-side completion, then deliver SEND/RDMA_WRITE
payloads through the registry. -/
def Device.post_send_found (d : Device) (_qpNum : Nat) (qpv : QPValue)
    (wr : RdmaWorkRequest) : OpResult :=
  if qpv.state ≠ QpState.RTS then ⟨false, [], d⟩
  else
    let d1 :=
      if wr.signaled then
        Device.enqueue_completion d qpv.send_cq
          { wr_id := wr.wr_id, status := 0, opcode := wr.opcode, length := wr.length }
      else d
    if wr.opcode = RdmaOpcode.RDMA_WRITE ∨ wr.opcode = RdmaOpcode.SEND then
      match alookup d1.globalQp qpv.dest_qp_num with
      | none => ⟨true, [], d1⟩
      | some t => Device.deliver d1 t qpv.dest_qp_num wr
    else ⟨true, [], d1⟩

/-- The `RdmaDevice::post_send`. -/
def Device.post_send (mc : Bool) (d : Device) (qpNum : Nat)
    (wr : RdmaWorkRequest) : OpResult :=
  match Device.sendLookup mc d qpNum with
  | none => ⟨false, [], d⟩
  | some (qpv, d1) => Device.post_send_found d1 qpNum qpv wr

/-- Which tier `post_recv` found the QP in (`is_cached` plus the host
case). -/
inductive RecvTier where
  | device | cached | host
  deriving DecidableEq, Repr

/-- The QP lookup at the top of `post_recv`: device tier, else middle cache
when enabled, else host table.  No registry update happens here. -/
def Device.recvLookup (mc : Bool) (d : Device) (qpNum : Nat) :
    Option (QPValue × RecvTier) :=
  match alookup d.qps qpNum with
  | some v => some (v, .device)
  | none =>
    if mc then
      match d.qpCache.get qpNum with
      | some v => some (v, .cached)
      | none => none
    else
      match alookup d.qpsHost qpNum with
      | some v => some (v, .host)
      | none => none

/-- The `RdmaDevice::post_recv`: require `RTR` or `RTS`; record the receive
buffer; when `pending_data` is non-empty, copy `min(pending.size,
wr.length)` bytes, enqueue a RECV completion (device-tier or middle-cache
CQ only) and clear `pending_data` and the buffer fields; finally write the
updated record back to the tier it came from (re-registering device-tier
records in `global_qp_map`). -/
def Device.post_recv (mc : Bool) (d : Device) (qpNum : Nat)
    (wr : RdmaWorkRequest) : OpResult :=
  match Device.recvLookup mc d qpNum with
  | none => ⟨false, [], d⟩
  | some (qpv, rt) =>
    if qpv.state ≠ QpState.RTR ∧ qpv.state ≠ QpState.RTS then ⟨false, [], d⟩
    else
      let q1 := { qpv with recv_addr := wr.local_addr, recv_length := wr.length }
      let step :=
        if q1.pending_data.isEmpty then (q1, ([] : List CopyEvent), d)
        else
          let copySize := min q1.pending_data.length wr.length
          let ev : CopyEvent := ⟨wr.local_addr, q1.pending_data.take copySize⟩
          let comp : CompletionEntry :=
            { wr_id := wr.wr_id, status := 0, opcode := .RECV, length := copySize }
          let d1 := Device.enqueue_completion_nohost d q1.recv_cq comp
          ({ q1 with pending_data := [], recv_addr := 0, recv_length := 0 }, [ev], d1)
      let q2 := step.1
      let evs := step.2.1
      let d1 := step.2.2
      match rt with
      | .device =>
        ⟨true, evs,
         { d1 with qps := ainsert d1.qps qpNum q2,
                   globalQp := ainsert d1.globalQp qpNum Tier.device }⟩
      | .cached => ⟨true, evs, { d1 with qpCache := d1.qpCache.set qpNum q2 }⟩
      | .host => ⟨true, evs, { d1 with qpsHost := ainsert d1.qpsHost qpNum q2 }⟩

/-- The `RdmaDevice::poll_cq`: a non-empty device-tier CQ is drained from the
front; an empty or absent device-tier CQ falls through to the middle cache
(when enabled) or the host table.  Returns the entries moved and whether at
least one was moved. -/
def Device.poll_cq (mc : Bool) (d : Device) (cqNum maxEntries : Nat) :
    Bool × List CompletionEntry × Device :=
  let fallthrough : Bool × List CompletionEntry × Device :=
    if mc then
      let r := d.cqCache.batchGetCompletions cqNum maxEntries
      if !r.1.isEmpty then (true, r.1, { d with cqCache := r.2 })
      else (false, [], { d with cqCache := r.2 })
    else
      match alookup d.cqsHost cqNum with
      | some cq =>
        if !cq.completions.isEmpty then
          let n := min maxEntries cq.completions.length
          (true, cq.completions.take n,
           { d with cqsHost :=
               (ainsert d.cqsHost cqNum { cq with completions := cq.completions.drop n }) })
        else (false, [], d)
      | none => (false, [], d)
  match alookup d.cqs cqNum with
  | some cq =>
    if !cq.completions.isEmpty then
      let n := min maxEntries cq.completions.length
      (true, cq.completions.take n,
       { d with cqs :=
           (ainsert d.cqs cqNum { cq with completions := cq.completions.drop n }) })
    else fallthrough
  | none => fallthrough

/-! ## Observation helpers -/

/-- The completion list of a CQ as the `post_recv` drain path can reach it:
device tier first, else the middle cache.  (The drain path never reaches a
host-resident CQ.) -/
def Device.drainCqView (d : Device) (cqNum : Nat) : Option (List CompletionEntry) :=
  match alookup d.cqs cqNum with
  | some cq => some cq.completions
  | none => (d.cqCache.get cqNum).map (fun cq => cq.completions)

/-- Read a QP record back from the tier `post_recv` found it in. -/
def Device.recvTierGet (d : Device) (rt : RecvTier) (qpNum : Nat) : Option QPValue :=
  match rt with
  | .device => alookup d.qps qpNum
  | .cached => d.qpCache.get qpNum
  | .host => alookup d.qpsHost qpNum

/-! ## Operation alphabet

One constructor per public mutating device operation, used to quantify over
every reachable device state. -/

inductive Op where
  | createQp (maxSendWr maxRecvWr sendCq recvCq : Nat)
  | createCq (maxCqe : Nat)
  | createPd
  | registerMr (addr len accessFlags : Nat)
  | modifyQp (qpNum : Nat) (newState : QpState)
  | connect (qpNum : Nat) (remote : QPValue)
  | postSend (qpNum : Nat) (wr : RdmaWorkRequest)
  | postRecv (qpNum : Nat) (wr : RdmaWorkRequest)
  | pollCq (cqNum maxEntries : Nat)
  | destroyQp (qpNum : Nat)
  | destroyCq (cqNum : Nat)
  | deregMr (lkey : Nat)
  | destroyPd (pdHandle : Nat)
  deriving DecidableEq

/-- Apply one public operation, discarding its return value. -/
def applyOp (mc : Bool) (d : Device) : Op → Device
  | .createQp a b c e => (Device.create_qp mc d a b c e).2
  | .createCq a => (Device.create_cq mc d a).2
  | .createPd => (Device.create_pd d).2
  | .registerMr a l f => (Device.register_mr d a l f).2
  | .modifyQp h s => (Device.modify_qp_state mc d h s).2
  | .connect h r => (Device.connect_qp mc d h r).2
  | .postSend h wr => (Device.post_send mc d h wr).dev
  | .postRecv h wr => (Device.post_recv mc d h wr).dev
  | .pollCq h m => (Device.poll_cq mc d h m).2.2
  | .destroyQp h => Device.destroy_qp d h
  | .destroyCq h => Device.destroy_cq d h
  | .deregMr h => Device.deregister_mr d h
  | .destroyPd h => Device.destroy_pd d h

/-- Every completion entry stored anywhere in the device (device-tier CQs,
middle-cache CQs, host-table CQs) has `status = 0`. -/
def statusOk (d : Device) : Prop :=
  (∀ p ∈ d.cqs, ∀ e ∈ p.2.completions, e.status = 0) ∧
  (∀ p ∈ d.cqCache.entries, ∀ e ∈ p.2.completions, e.status = 0) ∧
  (∀ p ∈ d.cqsHost, ∀ e ∈ p.2.completions, e.status = 0)

/-! # Theorems

## C4 — serialized frame size -/

/-- C4, counterexample.  The claim says a message with an empty error
string serializes to exactly 76 bytes; the serializer produces 68 bytes
(1 type + 50 scalar bytes + 32 gid bytes + 1 accept + 4 error-length). -/
theorem C4_counterexample :
    (serialize_message {}).length = 68 ∧ (68 : Nat) ≠ 76 := by
  constructor
  · rfl
  · decide

/-- C4, amended: for every `ControlMsg`, the serialized frame payload is
exactly 68 bytes plus the length of the error string. -/
theorem C4_serialized_length (msg : RdmaControlMsg) :
    (serialize_message msg).length = 68 + msg.error_msg.length := by
  by_cases h : msg.error_msg = []
  · simp [serialize_message, u16le, u32le, h]
  · have hl : msg.error_msg.length > 0 := by
      cases hm : msg.error_msg with
      | nil => exact absurd hm h
      | cons a l => simp [hm]
    simp [serialize_message, u16le, u32le, hl]
    omega

/-! ## C6, C7, C8 — missing argument validation (code bugs)

The repository's own test suite (`test/test_rdma_device.cpp`) asserts that
`create_qp` with send depth 0, `create_cq(0)` and `register_mr(nullptr, …)`
all return handle `0`; the source performs none of these checks, so each
call returns a fresh nonzero handle. -/

/-- C6: on a device with one valid CQ (handle 1), `create_qp(0, 8, 1, 1)` —
send depth zero — returns the fresh handle 1 instead of the 0 that the
claim (and `test_rdma_device.cpp:84`) requires. -/
theorem C6_zero_send_depth_accepted :
    (Device.create_qp true
      ((Device.create_cq true (Device.init 1 1 1 1) 16).2) 0 8 1 1).1 = 1 := by
  decide

/-- C7: `create_cq(0)` on a fresh device returns the fresh handle 1 instead
of the 0 that the claim (and `test_rdma_device.cpp:57`) requires. -/
theorem C7_zero_depth_cq_accepted :
    (Device.create_cq true (Device.init 1 1 1 1) 0).1 = 1 := by
  decide

/-- C8: `register_mr` with a null address (modelled as address 0) returns
the fresh lkey 1 instead of the 0 that the claim (and
`test_rdma_device.cpp:117`) requires. -/
theorem C8_null_addr_accepted :
    (Device.register_mr (Device.init 1 1 1 1) 0 4096 1).1 = 1 := by
  decide

/-! ## C3 — serialization round trip -/

/-- A `ControlMsg` whose `QPValue` has a nonzero `send_cq`.  `send_cq` is
not part of the wire format, so the round trip cannot restore it. -/
def c3cex : RdmaControlMsg := { qp_info := { send_cq := 5 } }

/-- C3, counterexample.  `c3cex` has an error string of length 0 ≤ 4000,
yet deserializing its serialization does not yield it back: the
deserializer leaves `send_cq` at the output message's prior value (0),
because `serialize_message` never writes `send_cq`, `recv_cq`,
`created_time`, `recv_addr`, `recv_length` or `pending_data`. -/
theorem C3_counterexample :
    c3cex.error_msg.length ≤ 4000 ∧
      deserialize_message (serialize_message c3cex) {} ≠ some c3cex := by
  constructor
  · decide
  · intro h
    have h0 : (deserialize_message (serialize_message c3cex) {}).map
        (fun m => m.qp_info.send_cq) = some 0 := rfl
    rw [h] at h0
    simp [c3cex] at h0

/-! ## C5 — receive deadline vs. ERROR state -/

/-- Oracle for C5: header word arrives intact announcing a 10-byte body,
then no body data arrives; the body `poll` (whose wait is capped by the
500 ms left of the deadline) returns 0. -/
def c5env : RecvEnv :=
  { headerPollRes := 1, headerRecvRes := 4, msgLen := 10,
    body := [{ elapsedMs := 0, pollRes := 0, recvRes := 0 }] }

/-- C5, counterexample.  With a 500 ms deadline the body `poll` times out —
the deadline has expired while reading the message body — and the source
sets `state_ = ERROR` instead of leaving the channel in its prior
`CONNECTED` state. -/
theorem C5_counterexample :
    receive_message .CONNECTED true 500 c5env =
      .done false .ERROR ∧ ConnectionState.ERROR ≠ ConnectionState.CONNECTED := by
  constructor
  · decide
  · decide

/-- C5, amended.  Deadline handling of `receive_message`: (1) expiry of the
header-read `poll` returns `false` and leaves the channel state unchanged;
(2) the top-of-loop deadline check of the body read (elapsed time at least
the deadline) likewise returns `false` with the state unchanged; but (3)
when the `poll` for body data itself reports a timeout the channel enters
`ERROR` even though no hard low-level error occurred. -/
theorem C5_deadline_behavior :
    (∀ (t : Nat) (env : RecvEnv), env.headerPollRes = 0 →
        receive_message .CONNECTED true t env = .done false .CONNECTED) ∧
    (∀ (st : ConnectionState) (t ml rcv : Nat) (i : BodyIter)
        (rest : List BodyIter) (data : List Nat),
        rcv < ml → 0 < t → (t : Int) - (i.elapsedMs : Int) ≤ 0 →
        bodyLoop st t ml rcv (i :: rest) data = .done false st) ∧
    (∀ (st : ConnectionState) (t ml rcv : Nat) (i : BodyIter)
        (rest : List BodyIter) (data : List Nat),
        rcv < ml → ¬(0 < t ∧ (t : Int) - (i.elapsedMs : Int) ≤ 0) →
        i.pollRes = 0 →
        bodyLoop st t ml rcv (i :: rest) data = .done false .ERROR) := by
  refine ⟨?_, ?_, ?_⟩
  · intro t env h
    simp [receive_message, h]
  · intro st t ml rcv i rest data h1 h2 h3
    simp only [bodyLoop]
    rw [if_neg (Nat.not_le.mpr h1), if_pos ⟨h2, h3⟩]
  · intro st t ml rcv i rest data h1 h2 h3
    simp only [bodyLoop]
    rw [if_neg (Nat.not_le.mpr h1), if_neg h2, if_pos (le_of_eq h3)]

/-! ## C2 — destruction vs. `get_*_info` across residency tiers -/

theorem Cache.get_set_self {V : Type} (c : Cache V) (k : Nat) (v : V) :
    (Cache.set c k v).get k = some v := by
  simp [Cache.set, Cache.get, alookup_ainsert_self]

theorem Cache.get_setMR_self {V : Type} (c : Cache V) (k : Nat) (v : V) :
    (Cache.setMR c k v).get k = some v := by
  simp [Cache.setMR, Cache.get, alookup_ainsert_self]

/-- Device whose QP capacity is 0, so a fresh QP spills to the middle
cache; used to refute C2. -/
def c2dev : Device :=
  (Device.create_qp true ((Device.create_cq true (Device.init 0 1 1 1) 16).2) 8 8 1 1).2

/-- C2, counterexample.  On `c2dev` the QP handle 1 was created (in the
middle cache) and then destroyed, yet `get_qp_info` still succeeds:
`destroy_qp` only overwrites the cached entry with an empty `QPValue`, so
the handle remains present. -/
theorem C2_counterexample :
    (Device.create_qp true ((Device.create_cq true (Device.init 0 1 1 1) 16).2) 8 8 1 1).1 = 1 ∧
    (Device.get_qp_info true (Device.destroy_qp c2dev 1) 1).isSome = true := by
  constructor
  · decide
  · decide

/-- C2, amended.  After `destroy_qp` / `destroy_cq` / `deregister_mr`,
`get_*_info` on the same handle succeeds exactly when the handle was
resident outside the device tier before the call: in the middle cache when
it is enabled (destruction merely overwrites the cached entry with an empty
value), or in the host-swap table when it is disabled (destruction never
touches the host table).  Only a device-tier resident is really removed.
(PDs have no `get_pd_info` in the source, so no statement is possible for
them.) -/
theorem C2_destroy_get_residency (mc : Bool) (d : Device) (h : Nat) :
    ((Device.get_qp_info mc (Device.destroy_qp d h) h).isSome
        = (if mc then (d.qpCache.get h).isSome else (alookup d.qpsHost h).isSome)) ∧
    ((Device.get_cq_info mc (Device.destroy_cq d h) h).isSome
        = (if mc then (d.cqCache.get h).isSome else (alookup d.cqsHost h).isSome)) ∧
    ((Device.get_mr_info (Device.deregister_mr d h) h).isSome
        = (d.mrCache.get h).isSome) := by
  refine ⟨?_, ?_, ?_⟩
  · cases hd : alookup d.qps h with
    | some v =>
      simp only [Device.destroy_qp, hd, Option.isSome_some, if_true]
      simp [Device.get_qp_info, alookup_aerase_self]
      cases mc <;> simp
    | none =>
      cases hc : d.qpCache.get h with
      | some v =>
        simp only [Device.destroy_qp, hd, hc, Option.isSome_none, Option.isSome_some,
          Bool.false_eq_true, if_false, if_true]
        simp [Device.get_qp_info, hd, Cache.get_set_self]
        cases mc <;> simp [hc]
      | none =>
        simp only [Device.destroy_qp, hd, hc, Option.isSome_none,
          Bool.false_eq_true, if_false]
        simp [Device.get_qp_info, hd, hc]
        cases mc <;> simp
  · cases hd : alookup d.cqs h with
    | some v =>
      simp only [Device.destroy_cq, hd, Option.isSome_some, if_true]
      simp [Device.get_cq_info, alookup_aerase_self]
      cases mc <;> simp
    | none =>
      cases hc : d.cqCache.get h with
      | some v =>
        simp only [Device.destroy_cq, hd, hc, Option.isSome_none, Option.isSome_some,
          Bool.false_eq_true, if_false, if_true]
        simp [Device.get_cq_info, hd, Cache.get_set_self]
        cases mc <;> simp [hc]
      | none =>
        simp only [Device.destroy_cq, hd, hc, Option.isSome_none,
          Bool.false_eq_true, if_false]
        simp [Device.get_cq_info, hd, hc]
        cases mc <;> simp
  · cases hd : alookup d.mrs h with
    | some v =>
      simp only [Device.deregister_mr, hd, Option.isSome_some, if_true]
      simp [Device.get_mr_info, alookup_aerase_self]
    | none =>
      cases hc : d.mrCache.get h with
      | some v =>
        simp only [Device.deregister_mr, hd, hc, Option.isSome_none, Option.isSome_some,
          Bool.false_eq_true, if_false, if_true]
        simp [Device.get_mr_info, hd, Cache.get_setMR_self, hc]
      | none =>
        simp only [Device.deregister_mr, hd, hc, Option.isSome_none,
          Bool.false_eq_true, if_false]
        simp [Device.get_mr_info, hd, hc]

/-! ## C1 — staging in `pending_data` and the `post_recv` drain -/

/-- C1, counterexample scenario: middle cache disabled and both the QP and
its CQ spilled to the host table (device capacities 0).  QP 1 is walked to
RTS, connected to itself, and a SEND of "ABC" is posted while no receive
buffer is posted, staging the payload in `pending_data`. -/
def c1sent : OpResult :=
  Device.post_send false
    ((Device.connect_qp false
        ((Device.modify_qp_state false
            ((Device.create_qp false
                ((Device.create_cq false (Device.init 0 0 1 1) 16).2) 8 8 1 1).2)
            1 .RTS).2)
        1 { qp_num := 1 }).2)
    1 { opcode := .SEND, local_addr := 100, length := 3, signaled := false,
        payload := [65, 66, 67] }

/-- C1, the subsequent `post_recv` on the staged state. -/
def c1recv : OpResult :=
  Device.post_recv false c1sent.dev 1
    { local_addr := 200, length := 10, wr_id := 9 }

/-- C1, counterexample.  The SEND staged `[65, 66, 67]` in QP 1's
`pending_data`; the subsequent `post_recv` drains it (returns `true` and
copies the 3 = min(3, 10) bytes into the new buffer at address 200) and
yet **no** RECV completion is enqueued anywhere — the QP's `recv_cq`
resides in the host table, which the drain path of `post_recv` never
consults, so the completion required by the claim is silently dropped. -/
theorem C1_counterexample :
    c1sent.ok = true ∧
    (alookup c1sent.dev.qpsHost 1).map (fun v => v.pending_data) = some [65, 66, 67] ∧
    c1recv.ok = true ∧
    c1recv.events = [⟨200, [65, 66, 67]⟩] ∧
    (alookup c1recv.dev.cqsHost 1).map (fun c => c.completions) = some [] ∧
    c1recv.dev.cqs = [] ∧
    c1recv.dev.cqCache.entries = [] := by
  refine ⟨by decide, by decide, by decide, by decide, by decide, by decide, by decide⟩

/-- C5, witness for `C5_deadline_behavior` at concrete inputs. -/
theorem C5_deadline_behavior_witness :
    receive_message .CONNECTED true 7 { headerPollRes := 0 } = .done false .CONNECTED ∧
    bodyLoop .CONNECTED 5 10 0 [{ elapsedMs := 6, pollRes := 1, recvRes := 0 }] [] =
      .done false .CONNECTED ∧
    bodyLoop .CONNECTED 500 10 0 [{ elapsedMs := 0, pollRes := 0, recvRes := 0 }] [] =
      .done false .ERROR :=
  ⟨C5_deadline_behavior.1 7 { headerPollRes := 0 } rfl,
   C5_deadline_behavior.2.1 .CONNECTED 5 10 0
     { elapsedMs := 6, pollRes := 1, recvRes := 0 } [] [] (by decide) (by decide) (by decide),
   C5_deadline_behavior.2.2 .CONNECTED 500 10 0
     { elapsedMs := 0, pollRes := 0, recvRes := 0 } [] [] (by decide) (by decide) (by decide)⟩



theorem readU8_cons (b : Nat) (r : List Nat) : readU8 (b :: r) = some (b, r) := rfl

theorem readU16_u16le (n : Nat) (r : List Nat) (h : n < 65536) :
    readU16 (u16le n ++ r) = some (n, r) := by
  simp [u16le, readU16]
  omega

theorem readU32_u32le (n : Nat) (r : List Nat) (h : n < 4294967296) :
    readU32 (u32le n ++ r) = some (n, r) := by
  simp [u32le, readU32]
  omega

theorem readBytes_exact {n : Nat} (l r : List Nat) (h : l.length = n) :
    readBytes n (l ++ r) = some (l, r) := by
  subst h
  simp [readBytes, List.take_left, List.drop_left]

theorem getD_ofFn_eq (g : Fin 16 → Nat) :
    (fun i : Fin 16 => (List.ofFn g).getD (↑i) 0) = g := by
  funext i
  have hi : (i : Nat) < (List.ofFn g).length := by
    rw [List.length_ofFn]
    exact i.isLt
  rw [List.getD_eq_getElem _ _ hi, List.getElem_ofFn]

theorem qpState_fromByte_toByte (s : QpState) :
    QpState.fromByte (s.toByte % 256) = s := by
  cases s <;> rfl

theorem msgType_fromByte_toByte (t : RdmaControlMsgType) :
    RdmaControlMsgType.fromByte (t.toByte % 256) = t := by
  cases t <;> rfl

theorem acceptByte_roundtrip (b : Bool) : ((if b then (1 : Nat) else 0) != 0) = b := by
  cases b <;> rfl

set_option maxHeartbeats 1600000

/-- C3, amended.  For every `ControlMsg` whose scalar wire fields are within
their declared integer widths and whose error string has length at most
4000, deserializing the serialization restores the message type, the accept
flag, the error string, and the twelve `QPValue` wire fields; the
non-transmitted `QPValue` fields (`send_cq`, `recv_cq`, `created_time`,
`recv_addr`, `recv_length`, `pending_data`) keep the output message's prior
values. -/
theorem C3_roundtrip (x prior : RdmaControlMsg)
    (h1 : x.qp_info.qp_num < 4294967296)
    (h2 : x.qp_info.dest_qp_num < 4294967296)
    (h3 : x.qp_info.lid < 65536)
    (h4 : x.qp_info.remote_lid < 65536)
    (h5 : x.qp_info.port_num < 256)
    (h6 : x.qp_info.qp_access_flags < 4294967296)
    (h7 : x.qp_info.psn < 4294967296)
    (h8 : x.qp_info.remote_psn < 4294967296)
    (h9 : x.qp_info.mtu < 4294967296)
    (h10 : x.error_msg.length ≤ 4000) :
    deserialize_message (serialize_message x) prior =
      some { prior with
        type := x.type, accept := x.accept, error_msg := x.error_msg,
        qp_info := { prior.qp_info with
          qp_num := x.qp_info.qp_num, dest_qp_num := x.qp_info.dest_qp_num,
          lid := x.qp_info.lid, remote_lid := x.qp_info.remote_lid,
          port_num := x.qp_info.port_num,
          qp_access_flags := x.qp_info.qp_access_flags,
          psn := x.qp_info.psn, remote_psn := x.qp_info.remote_psn,
          gid := x.qp_info.gid, remote_gid := x.qp_info.remote_gid,
          mtu := x.qp_info.mtu, state := x.qp_info.state } } := by
  have h11 : x.error_msg.length < 4294967296 := by omega
  simp only [serialize_message, List.append_assoc, List.singleton_append,
    List.cons_append, deserialize_message, List.isEmpty_cons, Bool.false_eq_true,
    List.nil_append, if_false, readU8_cons, readU16_u16le, readU32_u32le, readBytes_exact,
    List.length_ofFn, h1, h2, h3, h4, h6, h7, h8, h9, h11, Nat.mod_eq_of_lt h5,
    getD_ofFn_eq, qpState_fromByte_toByte, msgType_fromByte_toByte,
    acceptByte_roundtrip]
  by_cases hE : x.error_msg = []
  · simp only [hE, List.length_nil, gt_iff_lt, Nat.lt_irrefl, if_false]
  · have hl : x.error_msg.length > 0 := by
      cases hm : x.error_msg with
      | nil => exact absurd hm hE
      | cons a l => simp [hm]
    simp only [hl, if_pos, gt_iff_lt, readBytes, List.take_length, le_refl, if_true,
      Option.map_some]
    rfl



/-- Concrete witness message for `C3_roundtrip`. -/
def c3w : RdmaControlMsg :=
  { type := .CONNECT_RESPONSE, accept := true, error_msg := [72, 105],
    qp_info := { qp_num := 7, dest_qp_num := 9, lid := 3, remote_lid := 4,
                 port_num := 2, qp_access_flags := 1, psn := 100,
                 remote_psn := 200, mtu := 4096, state := .INIT } }

/-- C3, witness for `C3_roundtrip` at `c3w`. -/
theorem C3_roundtrip_witness :
    deserialize_message (serialize_message c3w) {} =
      some { ({} : RdmaControlMsg) with
        type := c3w.type, accept := c3w.accept, error_msg := c3w.error_msg,
        qp_info := { ({} : RdmaControlMsg).qp_info with
          qp_num := c3w.qp_info.qp_num, dest_qp_num := c3w.qp_info.dest_qp_num,
          lid := c3w.qp_info.lid, remote_lid := c3w.qp_info.remote_lid,
          port_num := c3w.qp_info.port_num,
          qp_access_flags := c3w.qp_info.qp_access_flags,
          psn := c3w.qp_info.psn, remote_psn := c3w.qp_info.remote_psn,
          gid := c3w.qp_info.gid, remote_gid := c3w.qp_info.remote_gid,
          mtu := c3w.qp_info.mtu, state := c3w.qp_info.state } } :=
  C3_roundtrip c3w {} (by decide) (by decide) (by decide) (by decide) (by decide)
    (by decide) (by decide) (by decide) (by decide) (by decide)


/-! ## C10 — `post_send` to an unregistered destination -/

theorem enqueue_completion_frame (d : Device) (c : Nat) (e : CompletionEntry) :
    (Device.enqueue_completion d c e).qps = d.qps ∧
    (Device.enqueue_completion d c e).qpCache = d.qpCache ∧
    (Device.enqueue_completion d c e).qpsHost = d.qpsHost ∧
    (Device.enqueue_completion d c e).globalQp = d.globalQp := by
  unfold Device.enqueue_completion
  cases alookup d.cqs c with
  | some cq => exact ⟨rfl, rfl, rfl, rfl⟩
  | none =>
    cases d.cqCache.get c with
    | some cq => exact ⟨rfl, rfl, rfl, rfl⟩
    | none =>
      cases alookup d.cqsHost c with
      | some cq => exact ⟨rfl, rfl, rfl, rfl⟩
      | none => exact ⟨rfl, rfl, rfl, rfl⟩

theorem sendLookup_frame {mc : Bool} {d : Device} {q : Nat} {v : QPValue}
    {d1 : Device} (h : Device.sendLookup mc d q = some (v, d1)) :
    d1.qps = d.qps ∧ d1.qpCache = d.qpCache ∧ d1.qpsHost = d.qpsHost ∧
    d1.cqs = d.cqs ∧ d1.cqCache = d.cqCache ∧ d1.cqsHost = d.cqsHost ∧
    (d1.globalQp = d.globalQp ∨
     d1.globalQp = ainsert d.globalQp q Tier.device ∨
     d1.globalQp = ainsert d.globalQp q Tier.host) := by
  unfold Device.sendLookup at h
  cases hd : alookup d.qps q with
  | some w =>
    rw [hd] at h
    simp only [Option.some.injEq, Prod.mk.injEq] at h
    rw [← h.2]
    exact ⟨rfl, rfl, rfl, rfl, rfl, rfl, Or.inr (Or.inl rfl)⟩
  | none =>
    rw [hd] at h
    by_cases hm : mc
    · rw [if_pos hm] at h
      cases hc : d.qpCache.get q with
      | some w =>
        rw [hc] at h
        simp only [Option.some.injEq, Prod.mk.injEq] at h
        rw [← h.2]
        exact ⟨rfl, rfl, rfl, rfl, rfl, rfl, Or.inl rfl⟩
      | none => rw [hc] at h; exact absurd h (by simp)
    · rw [if_neg hm] at h
      cases hh : alookup d.qpsHost q with
      | some w =>
        rw [hh] at h
        simp only [Option.some.injEq, Prod.mk.injEq] at h
        rw [← h.2]
        exact ⟨rfl, rfl, rfl, rfl, rfl, rfl, Or.inr (Or.inr rfl)⟩
      | none => rw [hh] at h; exact absurd h (by simp)

/-- C10.  On a QP in RTS whose `dest_qp_num` has no entry in the QP
registry (and is distinct from the posting QP, which `post_send` itself
registers), a SEND/RDMA_WRITE `post_send` still returns `true`: no bytes
are copied, no QP record anywhere (so no `pending_data`) changes, and when
the work request is unsignaled even the CQ structures are untouched — the
only possible effect is the signaled send-side completion. -/
theorem C10_missing_dest (mc : Bool) (d : Device) (q : Nat)
    (wr : RdmaWorkRequest) (qpv : QPValue) (d1 : Device)
    (hfound : Device.sendLookup mc d q = some (qpv, d1))
    (hst : qpv.state = QpState.RTS)
    (hop : wr.opcode = RdmaOpcode.SEND ∨ wr.opcode = RdmaOpcode.RDMA_WRITE)
    (hdest : alookup d.globalQp qpv.dest_qp_num = none)
    (hne : qpv.dest_qp_num ≠ q) :
    (Device.post_send mc d q wr).ok = true ∧
    (Device.post_send mc d q wr).events = [] ∧
    (Device.post_send mc d q wr).dev.qps = d.qps ∧
    (Device.post_send mc d q wr).dev.qpCache = d.qpCache ∧
    (Device.post_send mc d q wr).dev.qpsHost = d.qpsHost ∧
    (wr.signaled = false →
      (Device.post_send mc d q wr).dev.cqs = d.cqs ∧
      (Device.post_send mc d q wr).dev.cqCache = d.cqCache ∧
      (Device.post_send mc d q wr).dev.cqsHost = d.cqsHost) := by
  obtain ⟨hq, hqc, hqh, hc, hcc, hch, hg⟩ := sendLookup_frame hfound
  have hg1 : alookup d1.globalQp qpv.dest_qp_num = none := by
    rcases hg with h | h | h
    · rw [h]; exact hdest
    · rw [h, alookup_ainsert_ne _ _ _ _ hne]; exact hdest
    · rw [h, alookup_ainsert_ne _ _ _ _ hne]; exact hdest
  have hop2 : wr.opcode = RdmaOpcode.RDMA_WRITE ∨ wr.opcode = RdmaOpcode.SEND :=
    hop.symm
  have hrts : ¬ QpState.RTS ≠ QpState.RTS := fun hco => hco rfl
  simp only [Device.post_send, hfound]
  cases hs : wr.signaled
  · simp only [Device.post_send_found, hst, hs, Bool.false_eq_true, if_false]
    rw [if_neg hrts, if_pos hop2, hg1]
    exact ⟨rfl, rfl, hq, hqc, hqh, fun _ => ⟨hc, hcc, hch⟩⟩
  · simp only [Device.post_send_found, hst, hs, if_true]
    rw [if_neg hrts, if_pos hop2]
    obtain ⟨eq1, eq2, eq3, eq4⟩ := enqueue_completion_frame d1 qpv.send_cq
      { wr_id := wr.wr_id, status := 0, opcode := wr.opcode, length := wr.length }
    rw [eq4, hg1]
    refine ⟨rfl, rfl, ?_, ?_, ?_, fun hco => by simp [hs] at hco⟩
    · rw [eq1, hq]
    · rw [eq2, hqc]
    · rw [eq3, hqh]


/-- Witness device for C10: QP 1 in RTS in the device tier, bound to CQ 1,
destined to the unregistered QP number 999. -/
def c10qpv : QPValue :=
  { qp_num := 1, dest_qp_num := 999, state := .RTS, send_cq := 1, recv_cq := 1 }

def c10dev : Device :=
  { qps := [(1, c10qpv)], cqs := [(1, { cq_num := 1, cqe := 16 })],
    qpCache := ⟨2, []⟩, cqCache := ⟨2, []⟩, mrCache := ⟨2, []⟩, pdCache := ⟨2, []⟩,
    maxQps := 1, maxCqs := 1, maxMrs := 1, maxPds := 1,
    nextQpNum := 2, nextCqNum := 2 }

def c10d1 : Device := { c10dev with globalQp := [(1, Tier.device)] }

def c10wr : RdmaWorkRequest :=
  { opcode := .SEND, length := 5, signaled := true, wr_id := 3,
    payload := [1, 2, 3, 4, 5] }

/-- C10, witness for `C10_missing_dest` at the concrete device `c10dev`. -/
theorem C10_missing_dest_witness :
    (Device.post_send true c10dev 1 c10wr).ok = true ∧
    (Device.post_send true c10dev 1 c10wr).events = [] ∧
    (Device.post_send true c10dev 1 c10wr).dev.qps = c10dev.qps ∧
    (Device.post_send true c10dev 1 c10wr).dev.qpCache = c10dev.qpCache ∧
    (Device.post_send true c10dev 1 c10wr).dev.qpsHost = c10dev.qpsHost ∧
    (c10wr.signaled = false →
      (Device.post_send true c10dev 1 c10wr).dev.cqs = c10dev.cqs ∧
      (Device.post_send true c10dev 1 c10wr).dev.cqCache = c10dev.cqCache ∧
      (Device.post_send true c10dev 1 c10wr).dev.cqsHost = c10dev.cqsHost) :=
  C10_missing_dest true c10dev 1 c10wr c10qpv c10d1 rfl rfl (Or.inl rfl) rfl
    (by decide)


/-! ## C1 — amended staging/drain theorem -/

theorem tierLookup_congr {d2 d1 : Device} (t : Tier) (k : Nat)
    (hq : d2.qps = d1.qps) (hh : d2.qpsHost = d1.qpsHost) :
    Device.tierLookup d2 t k = Device.tierLookup d1 t k := by
  cases t <;> simp [Device.tierLookup, hq, hh]

theorem tierLookup_tierStore_self (d : Device) (t : Tier) (k : Nat) (v : QPValue) :
    Device.tierLookup (Device.tierStore d t k v) t k = some v := by
  cases t <;> simp [Device.tierLookup, Device.tierStore, alookup_ainsert_self]

theorem drainCqView_congr {d2 d1 : Device} (c : Nat)
    (h1 : d2.cqs = d1.cqs) (h2 : d2.cqCache = d1.cqCache) :
    Device.drainCqView d2 c = Device.drainCqView d1 c := by
  simp [Device.drainCqView, h1, h2]

theorem drainCqView_enqueue_nohost (d : Device) (c : Nat)
    (before : List CompletionEntry) (e : CompletionEntry)
    (h : Device.drainCqView d c = some before) :
    Device.drainCqView (Device.enqueue_completion_nohost d c e) c =
      some (before ++ [e]) := by
  unfold Device.drainCqView at h
  cases hd : alookup d.cqs c with
  | some cq =>
    rw [hd] at h
    simp only [Option.some.injEq] at h
    simp [Device.enqueue_completion_nohost, hd, Device.drainCqView,
      alookup_ainsert_self, h]
  | none =>
    rw [hd] at h
    cases hc : d.cqCache.get c with
    | some cq =>
      rw [hc] at h
      simp only [Option.map, Option.some.injEq] at h
      simp [Device.enqueue_completion_nohost, hd, hc, Device.drainCqView,
        Cache.get_set_self, h]
    | none =>
      rw [hc] at h
      simp at h

/-- C1, amended.  (1) *Staging*: a SEND/RDMA_WRITE posted on an RTS QP whose
registered destination record has no posted receive buffer returns `true`,
copies nothing into caller memory, and overwrites the destination's
`pending_data` with the payload.  (2) *Drain*: a `post_recv` on a QP with
non-empty `pending_data` (in RTR or RTS) returns `true`, copies
`min(pending.size, wr.length)` bytes into the new buffer, clears
`pending_data` / `recv_addr` / `recv_length`, and appends exactly one RECV
completion of that length to the QP's `recv_cq` **provided** the `recv_cq`
is reachable by the drain path — i.e. resides in the device tier or the
middle cache; a host-resident `recv_cq` loses the completion
(`C1_counterexample`). -/
theorem C1_pending_data_lifecycle :
    (∀ (mc : Bool) (d : Device) (q : Nat) (wr : RdmaWorkRequest)
       (qpv : QPValue) (d1 : Device) (t : Tier) (r : QPValue),
       Device.sendLookup mc d q = some (qpv, d1) →
       qpv.state = QpState.RTS →
       (wr.opcode = RdmaOpcode.SEND ∨ wr.opcode = RdmaOpcode.RDMA_WRITE) →
       alookup d1.globalQp qpv.dest_qp_num = some t →
       Device.tierLookup d t qpv.dest_qp_num = some r →
       r.recv_addr = 0 →
       (Device.post_send mc d q wr).ok = true ∧
       (Device.post_send mc d q wr).events = [] ∧
       Device.tierLookup (Device.post_send mc d q wr).dev t qpv.dest_qp_num =
         some { r with pending_data := wr.payload }) ∧
    (∀ (mc : Bool) (d : Device) (q : Nat) (wr : RdmaWorkRequest)
       (qpv : QPValue) (rt : RecvTier) (before : List CompletionEntry),
       Device.recvLookup mc d q = some (qpv, rt) →
       (qpv.state = QpState.RTR ∨ qpv.state = QpState.RTS) →
       qpv.pending_data ≠ [] →
       Device.drainCqView d qpv.recv_cq = some before →
       (Device.post_recv mc d q wr).ok = true ∧
       (Device.post_recv mc d q wr).events =
         [⟨wr.local_addr,
           qpv.pending_data.take (min qpv.pending_data.length wr.length)⟩] ∧
       Device.drainCqView (Device.post_recv mc d q wr).dev qpv.recv_cq =
         some (before ++ [{ wr_id := wr.wr_id, status := 0, opcode := .RECV,
                            length := min qpv.pending_data.length wr.length }]) ∧
       Device.recvTierGet (Device.post_recv mc d q wr).dev rt q =
         some { qpv with recv_addr := 0, recv_length := 0, pending_data := [] }) := by
  constructor
  · intro mc d q wr qpv d1 t r hfound hst hop hreg hdest hnorecv
    obtain ⟨hq, hqc, hqh, hc, hcc, hch, hg⟩ := sendLookup_frame hfound
    have hrts : ¬ QpState.RTS ≠ QpState.RTS := fun hco => hco rfl
    have hop2 : wr.opcode = RdmaOpcode.RDMA_WRITE ∨ wr.opcode = RdmaOpcode.SEND :=
      hop.symm
    have hif : ¬ r.recv_addr ≠ 0 := fun hco => hco hnorecv
    simp only [Device.post_send, hfound]
    cases hs : wr.signaled
    · simp only [Device.post_send_found, hst, hs, Bool.false_eq_true, if_false]
      rw [if_neg hrts, if_pos hop2, hreg]
      have hdest1 : Device.tierLookup d1 t qpv.dest_qp_num = some r := by
        rw [tierLookup_congr t qpv.dest_qp_num hq hqh]
        exact hdest
      simp only [Device.deliver, hdest1]
      rw [if_neg hif]
      exact ⟨rfl, rfl, tierLookup_tierStore_self _ _ _ _⟩
    · simp only [Device.post_send_found, hst, hs, if_true]
      rw [if_neg hrts, if_pos hop2]
      obtain ⟨eq1, eq2, eq3, eq4⟩ := enqueue_completion_frame d1 qpv.send_cq
        { wr_id := wr.wr_id, status := 0, opcode := wr.opcode, length := wr.length }
      rw [eq4, hreg]
      have e1 : (Device.enqueue_completion d1 qpv.send_cq
          { wr_id := wr.wr_id, status := 0, opcode := wr.opcode,
            length := wr.length }).qps = d.qps := by rw [eq1, hq]
      have e3 : (Device.enqueue_completion d1 qpv.send_cq
          { wr_id := wr.wr_id, status := 0, opcode := wr.opcode,
            length := wr.length }).qpsHost = d.qpsHost := by rw [eq3, hqh]
      have hdest1 : Device.tierLookup (Device.enqueue_completion d1 qpv.send_cq
          { wr_id := wr.wr_id, status := 0, opcode := wr.opcode,
            length := wr.length }) t qpv.dest_qp_num = some r := by
        rw [tierLookup_congr t qpv.dest_qp_num e1 e3]
        exact hdest
      simp only [Device.deliver, hdest1]
      rw [if_neg hif]
      exact ⟨rfl, rfl, tierLookup_tierStore_self _ _ _ _⟩
  · intro mc d q wr qpv rt before hfound hst hp hcq
    have hstate : ¬ (qpv.state ≠ QpState.RTR ∧ qpv.state ≠ QpState.RTS) := by
      rcases hst with h | h
      · exact fun hco => hco.1 h
      · exact fun hco => hco.2 h
    have hpe : qpv.pending_data.isEmpty = false := by
      cases hm : qpv.pending_data with
      | nil => exact absurd hm hp
      | cons a l => rfl
    simp only [Device.post_recv, hfound]
    rw [if_neg hstate]
    simp only [hpe, Bool.false_eq_true, if_false]
    have hdrained := drainCqView_enqueue_nohost d qpv.recv_cq before
      { wr_id := wr.wr_id, status := 0, opcode := .RECV,
        length := min qpv.pending_data.length wr.length } hcq
    cases rt with
    | device =>
      refine ⟨rfl, rfl, ?_, ?_⟩
      · rw [drainCqView_congr qpv.recv_cq rfl rfl]
        exact hdrained
      · simp [Device.recvTierGet, alookup_ainsert_self]
    | cached =>
      refine ⟨rfl, rfl, ?_, ?_⟩
      · rw [drainCqView_congr qpv.recv_cq rfl rfl]
        exact hdrained
      · simp [Device.recvTierGet, Cache.get_set_self]
    | host =>
      refine ⟨rfl, rfl, ?_, ?_⟩
      · rw [drainCqView_congr qpv.recv_cq rfl rfl]
        exact hdrained
      · simp [Device.recvTierGet, alookup_ainsert_self]


/-- Witness scenario for the staging half of C1: sender QP 1 (RTS) on the
device tier, destination QP 2 registered in the registry with no posted
receive buffer. -/
def c1aqp1 : QPValue :=
  { qp_num := 1, dest_qp_num := 2, state := .RTS, send_cq := 1, recv_cq := 1 }

def c1aqp2 : QPValue :=
  { qp_num := 2, state := .RTS, send_cq := 1, recv_cq := 1 }

def c1adev : Device :=
  { qps := [(1, c1aqp1), (2, c1aqp2)], cqs := [(1, { cq_num := 1, cqe := 16 })],
    qpCache := ⟨4, []⟩, cqCache := ⟨4, []⟩, mrCache := ⟨4, []⟩, pdCache := ⟨4, []⟩,
    maxQps := 2, maxCqs := 1, maxMrs := 1, maxPds := 1,
    nextQpNum := 3, nextCqNum := 2, globalQp := [(2, Tier.device)] }

def c1ad1 : Device := { c1adev with globalQp := [(2, Tier.device), (1, Tier.device)] }

def c1awr : RdmaWorkRequest :=
  { opcode := .SEND, length := 3, signaled := false, payload := [7, 8, 9] }

/-- Witness scenario for the drain half of C1: QP 1 (RTS, device tier) with
staged `pending_data` and its `recv_cq` in the device tier. -/
def c1bqp : QPValue :=
  { qp_num := 1, state := .RTS, send_cq := 1, recv_cq := 1,
    pending_data := [65, 66, 67] }

def c1bdev : Device :=
  { qps := [(1, c1bqp)], cqs := [(1, { cq_num := 1, cqe := 16 })],
    qpCache := ⟨2, []⟩, cqCache := ⟨2, []⟩, mrCache := ⟨2, []⟩, pdCache := ⟨2, []⟩,
    maxQps := 1, maxCqs := 1, maxMrs := 1, maxPds := 1,
    nextQpNum := 2, nextCqNum := 2 }

def c1bwr : RdmaWorkRequest := { local_addr := 200, length := 10, wr_id := 9 }

/-- C1, witness for `C1_pending_data_lifecycle` at concrete scenarios. -/
theorem C1_pending_data_lifecycle_witness :
    ((Device.post_send true c1adev 1 c1awr).ok = true ∧
     (Device.post_send true c1adev 1 c1awr).events = [] ∧
     Device.tierLookup (Device.post_send true c1adev 1 c1awr).dev Tier.device
         c1aqp1.dest_qp_num = some { c1aqp2 with pending_data := c1awr.payload }) ∧
    ((Device.post_recv true c1bdev 1 c1bwr).ok = true ∧
     (Device.post_recv true c1bdev 1 c1bwr).events =
       [⟨c1bwr.local_addr,
         c1bqp.pending_data.take (min c1bqp.pending_data.length c1bwr.length)⟩] ∧
     Device.drainCqView (Device.post_recv true c1bdev 1 c1bwr).dev c1bqp.recv_cq =
       some ([] ++ [{ wr_id := c1bwr.wr_id, status := 0, opcode := .RECV,
                      length := min c1bqp.pending_data.length c1bwr.length }]) ∧
     Device.recvTierGet (Device.post_recv true c1bdev 1 c1bwr).dev RecvTier.device 1 =
       some { c1bqp with recv_addr := 0, recv_length := 0, pending_data := [] }) :=
  ⟨C1_pending_data_lifecycle.1 true c1adev 1 c1awr c1aqp1 c1ad1 Tier.device c1aqp2
     rfl rfl (Or.inl rfl) rfl rfl rfl,
   C1_pending_data_lifecycle.2 true c1bdev 1 c1bwr c1bqp RecvTier.device []
     rfl (Or.inr rfl) (by decide) rfl⟩


/-! ## C9 — every completion ever enqueued has status 0 -/

theorem statusOk_of_eq {d2 d1 : Device} (h1 : d2.cqs = d1.cqs)
    (h2 : d2.cqCache.entries = d1.cqCache.entries)
    (h3 : d2.cqsHost = d1.cqsHost) (h : statusOk d1) : statusOk d2 := by
  unfold statusOk at *
  rw [h1, h2, h3]
  exact h

theorem forall_append_completions {l : List CompletionEntry} {e : CompletionEntry}
    (hl : ∀ x ∈ l, x.status = 0) (he : e.status = 0) :
    ∀ x ∈ l ++ [e], x.status = 0 := by
  intro x hx
  rcases List.mem_append.mp hx with h | h
  · exact hl x h
  · rw [List.mem_singleton.mp h]
    exact he

theorem statusOk_enqueue {d : Device} {c : Nat} {e : CompletionEntry}
    (he : e.status = 0) (h : statusOk d) :
    statusOk (Device.enqueue_completion d c e) := by
  obtain ⟨h1, h2, h3⟩ := h
  unfold Device.enqueue_completion
  cases hd : alookup d.cqs c with
  | some cq =>
    refine ⟨?_, h2, h3⟩
    exact forall_ainsert h1
      (forall_append_completions (h1 _ (mem_of_alookup_eq_some hd)) he)
  | none =>
    cases hcc : d.cqCache.get c with
    | some cq =>
      refine ⟨h1, ?_, h3⟩
      simp only [Cache.set]
      refine forall_ainsert ?_
        (forall_append_completions (h2 _ (mem_of_alookup_eq_some hcc)) he)
      split
      · exact forall_drop h2
      · exact h2
    | none =>
      cases hh : alookup d.cqsHost c with
      | some cq =>
        refine ⟨h1, h2, ?_⟩
        exact forall_ainsert h3
          (forall_append_completions (h3 _ (mem_of_alookup_eq_some hh)) he)
      | none => exact ⟨h1, h2, h3⟩

theorem statusOk_enqueue_nohost {d : Device} {c : Nat} {e : CompletionEntry}
    (he : e.status = 0) (h : statusOk d) :
    statusOk (Device.enqueue_completion_nohost d c e) := by
  obtain ⟨h1, h2, h3⟩ := h
  unfold Device.enqueue_completion_nohost
  cases hd : alookup d.cqs c with
  | some cq =>
    refine ⟨?_, h2, h3⟩
    exact forall_ainsert h1
      (forall_append_completions (h1 _ (mem_of_alookup_eq_some hd)) he)
  | none =>
    cases hcc : d.cqCache.get c with
    | some cq =>
      refine ⟨h1, ?_, h3⟩
      simp only [Cache.set]
      refine forall_ainsert ?_
        (forall_append_completions (h2 _ (mem_of_alookup_eq_some hcc)) he)
      split
      · exact forall_drop h2
      · exact h2
    | none => exact ⟨h1, h2, h3⟩


theorem statusOk_tierStore (d : Device) (t : Tier) (k : Nat) (v : QPValue)
    (h : statusOk d) : statusOk (Device.tierStore d t k v) := by
  cases t <;> exact statusOk_of_eq rfl rfl rfl h

theorem statusOk_deliver (d : Device) (t : Tier) (dest : Nat)
    (wr : RdmaWorkRequest) (h : statusOk d) :
    statusOk (Device.deliver d t dest wr).dev := by
  simp only [Device.deliver]
  split
  · exact h
  · split
    · exact statusOk_tierStore _ _ _ _ (statusOk_enqueue rfl h)
    · exact statusOk_tierStore _ _ _ _ h

theorem statusOk_post_send_found (d : Device) (q : Nat) (v : QPValue)
    (wr : RdmaWorkRequest) (h : statusOk d) :
    statusOk (Device.post_send_found d q v wr).dev := by
  simp only [Device.post_send_found]
  split
  · exact h
  · split
    · split
      · split
        · exact statusOk_enqueue rfl h
        · exact h
      · refine statusOk_deliver _ _ _ _ ?_
        split
        · exact statusOk_enqueue rfl h
        · exact h
    · split
      · exact statusOk_enqueue rfl h
      · exact h

theorem statusOk_batchGet (d : Device) (k m : Nat) (h : statusOk d) :
    statusOk { d with cqCache := (d.cqCache.batchGetCompletions k m).2 } := by
  obtain ⟨h1, h2, h3⟩ := h
  simp only [Cache.batchGetCompletions]
  split
  · exact ⟨h1, h2, h3⟩
  · next cq heq =>
    refine ⟨h1, ?_, h3⟩
    exact forall_ainsert h2
      (fun x hx => h2 _ (mem_of_alookup_eq_some heq) x (List.mem_of_mem_drop hx))

/-- Each public device operation preserves the all-statuses-zero invariant:
the only completion entries ever constructed (`post_send` send-side,
`post_send` delivery RECV, `post_recv` drain RECV) carry `status = 0`, and
every other operation only moves, drops or copies existing entries. -/
theorem statusOk_applyOp (mc : Bool) (d : Device) (op : Op)
    (h : statusOk d) : statusOk (applyOp mc d op) := by
  cases op with
  | createQp a b c e =>
    simp only [applyOp, Device.create_qp]
    repeat' split
    all_goals first
      | exact statusOk_of_eq rfl rfl rfl h
      | exact h
  | createCq a =>
    obtain ⟨h1, h2, h3⟩ := h
    simp only [applyOp, Device.create_cq]
    split
    · exact ⟨forall_ainsert h1 (fun x hx => by cases hx), h2, h3⟩
    · split
      · refine ⟨h1, ?_, h3⟩
        simp only [Cache.set]
        refine forall_ainsert ?_ (fun x hx => by cases hx)
        split
        · exact forall_drop h2
        · exact h2
      · exact ⟨h1, h2, forall_ainsert h3 (fun x hx => by cases hx)⟩
  | createPd =>
    simp only [applyOp, Device.create_pd]
    split
    · exact statusOk_of_eq rfl rfl rfl h
    · exact statusOk_of_eq rfl rfl rfl h
  | registerMr a l f =>
    simp only [applyOp, Device.register_mr]
    split
    · exact statusOk_of_eq rfl rfl rfl h
    · exact statusOk_of_eq rfl rfl rfl h
  | modifyQp q ns =>
    simp only [applyOp, Device.modify_qp_state]
    repeat' split
    all_goals first
      | exact statusOk_of_eq rfl rfl rfl h
      | exact h
  | connect q r =>
    simp only [applyOp, Device.connect_qp]
    repeat' split
    all_goals first
      | exact statusOk_of_eq rfl rfl rfl h
      | exact h
  | postSend q wr =>
    simp only [applyOp, Device.post_send]
    split
    · exact h
    · next p heq =>
      obtain ⟨hq, hqc, hqh, hc, hcc, hch, hg⟩ := sendLookup_frame heq
      exact statusOk_post_send_found _ _ _ _
        (statusOk_of_eq hc (by rw [hcc]) hch h)
  | postRecv q wr =>
    simp only [applyOp, Device.post_recv]
    repeat' split
    all_goals first
      | exact h
      | exact statusOk_of_eq rfl rfl rfl h
      | exact statusOk_of_eq rfl rfl rfl (statusOk_enqueue_nohost rfl h)
      | (refine statusOk_of_eq rfl rfl rfl ?_
         split
         · exact h
         · exact statusOk_enqueue_nohost rfl h)
  | pollCq c m =>
    obtain ⟨h1, h2, h3⟩ := h
    simp only [applyOp, Device.poll_cq]
    split
    · next cq heq =>
      split
      · exact ⟨forall_ainsert h1
          (fun x hx => h1 _ (mem_of_alookup_eq_some heq) x (List.mem_of_mem_drop hx)),
          h2, h3⟩
      · split
        · split
          · exact statusOk_batchGet d c m ⟨h1, h2, h3⟩
          · exact statusOk_batchGet d c m ⟨h1, h2, h3⟩
        · split
          · next cq2 heq2 =>
            split
            · exact ⟨h1, h2, forall_ainsert h3
                (fun x hx => h3 _ (mem_of_alookup_eq_some heq2) x (List.mem_of_mem_drop hx))⟩
            · exact ⟨h1, h2, h3⟩
          · exact ⟨h1, h2, h3⟩
    · split
      · split
        · exact statusOk_batchGet d c m ⟨h1, h2, h3⟩
        · exact statusOk_batchGet d c m ⟨h1, h2, h3⟩
      · split
        · next cq2 heq2 =>
          split
          · exact ⟨h1, h2, forall_ainsert h3
              (fun x hx => h3 _ (mem_of_alookup_eq_some heq2) x (List.mem_of_mem_drop hx))⟩
          · exact ⟨h1, h2, h3⟩
        · exact ⟨h1, h2, h3⟩
  | destroyQp q =>
    simp only [applyOp, Device.destroy_qp]
    repeat' split
    all_goals first
      | exact statusOk_of_eq rfl rfl rfl h
      | exact h
  | destroyCq c =>
    obtain ⟨h1, h2, h3⟩ := h
    simp only [applyOp, Device.destroy_cq]
    split
    · exact ⟨forall_aerase h1, h2, h3⟩
    · split
      · refine ⟨h1, ?_, h3⟩
        simp only [Cache.set]
        refine forall_ainsert ?_ (fun x hx => by cases hx)
        split
        · exact forall_drop h2
        · exact h2
      · exact ⟨h1, h2, h3⟩
  | deregMr l =>
    simp only [applyOp, Device.deregister_mr]
    repeat' split
    all_goals first
      | exact statusOk_of_eq rfl rfl rfl h
      | exact h
  | destroyPd p =>
    simp only [applyOp, Device.destroy_pd]
    repeat' split
    all_goals first
      | exact statusOk_of_eq rfl rfl rfl h
      | exact h


/-- C9.  Starting from a freshly constructed device, after any sequence of
public operations — under either middle-cache setting and any capacities —
every `CompletionEntry` stored in any CQ of any residency tier has
`status = 0`: the device never produces a completion with a nonzero
status. -/
theorem C9_all_statuses_zero (mc : Bool) (maxQps maxCqs maxMrs maxPds : Nat)
    (ops : List Op) :
    statusOk (ops.foldl (applyOp mc) (Device.init maxQps maxCqs maxMrs maxPds)) := by
  have hgen : ∀ d : Device, statusOk d → statusOk (ops.foldl (applyOp mc) d) := by
    induction ops with
    | nil => exact fun d h => h
    | cons op rest ih =>
      exact fun d h => ih _ (statusOk_applyOp mc d op h)
  refine hgen _ ⟨?_, ?_, ?_⟩ <;> intro p hp <;> cases hp

end RSim
